import Mathlib

/-!
Verification development for the djangoFlex capture/detection services.

The definitions below are a shallow embedding of
`djangoFlex_servers/videoCap_server/services/videoCap_service.py` and
`djangoFlex_servers/visionAI_server/services/objectDetect_service.py`.

Modelling conventions:
* Python dicts keyed by `rtmp_url` become association lists
  `List (String × β)` with `lookup` / `dinsert` / `derase` mirroring
  `d[k]` / `d[k] = v` / `del d[k]` (keys are unique in a Python dict, and
  `derase` removes every binding of the key, so the two agree).
* Wall-clock readings (`time.time()`, `timezone.now()`) are rationals
  supplied by an environment record, one field per call site.
* A `cv2.VideoCapture` handle is reduced to its `isOpened` bit; the dict
  `self.caps` maps a url to `Option Cap`, `none` standing for Python `None`.
* Fallible dictionary indexing and numpy calls return `Except String _`,
  the string naming the Python exception class that would be raised.
* Randomness (`np.random.randint(low, high)`) is modelled by an oracle
  argument `r : Nat` mapped to `low + r % (high - low)`; this ranges over
  exactly the values the numpy call can return, and raises for `high ≤ low`
  just as numpy does.
-/

namespace DjangoFlex

/-- Association-list lookup, modelling Python `d.get(k)` / `d[k]`. -/
def lookup {β : Type} : List (String × β) → String → Option β
  | [], _ => none
  | (k, v) :: rest, key => if k = key then some v else lookup rest key

/-- Association-list insertion, modelling Python `d[k] = v`. -/
def dinsert {β : Type} : List (String × β) → String → β → List (String × β)
  | [], key, v => [(key, v)]
  | (k, w) :: rest, key, v =>
      if k = key then (k, v) :: rest else (k, w) :: dinsert rest key v

/-- Association-list deletion, modelling Python `del d[k]` (guarded by a
membership test in the source, so the total function is faithful). -/
def derase {β : Type} : List (String × β) → String → List (String × β)
  | [], _ => []
  | (k, w) :: rest, key =>
      if k = key then derase rest key else (k, w) :: derase rest key

/-- Redis key used for the shared frame store,
`f"video_cap_service:current_image:\x7brtmp_url\x7d"` in the source. -/
def redisKey (url : String) : String := "video_cap_service:current_image:" ++ url

/-- The `VideoCapConfig` model row as far as the claims are concerned:
the identifying url and the `is_active` flag. -/
structure VideoCapConfig where
  rtmpUrl : String
  isActive : Bool
deriving DecidableEq

/-- A decode handle (`cv2.VideoCapture`), reduced to its `isOpened()` bit. -/
structure Cap where
  isOpened : Bool
deriving DecidableEq

/-- A `CurrentVideoClip` row created by `_save_video_clip_metadata`. -/
structure Clip where
  configRef : String
  clipPath : String
  startTime : ℚ
  endTime : ℚ
  duration : ℚ
deriving DecidableEq

/-- The mutable state of a `VideoCapService` instance: the dicts
`self.configs`, `self.caps`, `self.running`, `self.capture_threads`, the
Redis keyspace it touches, and the liveness of the per-stream ffmpeg
subprocess (spawned in `_capture_loop`, terminated in its `finally`). -/
structure Svc where
  configs : List (String × VideoCapConfig)
  caps : List (String × Option Cap)
  running : List (String × Bool)
  captureThreads : List (String × Unit)
  redis : List (String × List Nat)
  ffmpeg : List (String × Bool)
deriving DecidableEq

/-- A service whose dicts and keyspace are all empty (fresh instance with
no persisted configuration). -/
def svc0 : Svc := ⟨[], [], [], [], [], []⟩

/-- Constant `self.max_reconnect_attempts = 5`. -/
def maxReconnectAttempts : Nat := 5

/-- Constant `self.reconnect_timeout = 5`. -/
def reconnectTimeout : ℚ := 5

/-- Constant `self.video_clip_duration = 30`. -/
def videoClipDuration : ℚ := 30

/-- Models `_initialize_capture` (videoCap_service.py lines 105-118): the
previous handle, if any, is released and replaced; on success the slot
holds an opened handle, on any failure (including `isOpened()` false,
which raises and is caught) the slot holds `None`. -/
def init_capture (svc : Svc) (url : String) (initSuccess : Bool) : Svc :=
  let handle : Option Cap := if initSuccess then some { isOpened := true } else none
  { svc with caps := dinsert svc.caps url handle }

/-- Models lines 62-77 of `start_server`, executed after the running-flag
check has been passed: `get_or_create` the config, publish it in
`self.configs`, set `self.running[url] = True`, mark the config active,
initialize the capture handle and spawn the capture thread. -/
def startRest (svc : Svc) (url : String) (initSuccess : Bool) : Svc :=
  let config := match lookup svc.configs url with
    | some c => c
    | none => { rtmpUrl := url, isActive := false }
  let svc := { svc with configs := dinsert svc.configs url config }
  let svc := { svc with running := dinsert svc.running url true }
  let svc := { svc with configs := dinsert svc.configs url { config with isActive := true } }
  let svc := init_capture svc url initSuccess
  { svc with captureThreads := dinsert svc.captureThreads url () }

/-- Models `start_server` (lines 58-77) as the sequential composition of
the running-flag check (line 59-60) and `startRest`. -/
def start_server (svc : Svc) (url : String) (initSuccess : Bool) :
    Svc × Bool × String :=
  if (lookup svc.running url).getD false then
    (svc, false, "Server already running")
  else
    (startRest svc url initSuccess, true, "Server started successfully")

/-- Models `check_server_status` (lines 101-103):
`self.running.get(rtmp_url, False)`. -/
def check_server_status (svc : Svc) (url : String) : Bool :=
  (lookup svc.running url).getD false

/-- Second half of `stop_server` (lines 92-99): mark the configuration
inactive (raising `KeyError` when `self.configs` has no entry, as the
Python indexing would) and delete the stream's frame key from Redis. -/
def stopFinish (svc : Svc) (url : String) : Svc × Except String (Bool × String) :=
  match lookup svc.configs url with
  | none => (svc, .error "KeyError")
  | some c =>
    let svc := { svc with configs := dinsert svc.configs url { c with isActive := false } }
    let svc := { svc with redis := derase svc.redis (redisKey url) }
    (svc, .ok (true, "Server stopped successfully"))

/-- Models `stop_server` (lines 79-99). Note that line 89 calls
`self.caps[rtmp_url].release()` without a `None` guard: when the handle
slot holds `None` the call raises `AttributeError`, after the running
flag has already been cleared and the thread joined, and before the
config is deactivated or the Redis key deleted. The thread join (line
85) is modelled by removal of the thread registry entry. -/
def stop_server (svc : Svc) (url : String) : Svc × Except String (Bool × String) :=
  if (lookup svc.running url).getD false = false then
    (svc, .ok (false, "Server not running"))
  else
    let svc := { svc with running := dinsert svc.running url false }
    let svc := { svc with captureThreads := derase svc.captureThreads url }
    match lookup svc.caps url with
    | some none => (svc, .error "AttributeError")
    | some (some _) => stopFinish { svc with caps := derase svc.caps url } url
    | none => stopFinish svc url

/-- Models `_reconnect` (lines 210-216): release and null the handle,
pause, re-run `_initialize_capture`. It never touches the reconnect
attempt counter (a local of `_capture_loop`). -/
def reconnect (svc : Svc) (url : String) (initSuccess : Bool) : Svc :=
  init_capture { svc with caps := dinsert svc.caps url none } url initSuccess

/-- Models `_set_inactive` (lines 218-232): deactivate the config
(`KeyError` when absent), clear the running flag, release and null the
handle slot, drop the thread registry entry, delete the Redis frame key. -/
def set_inactive (svc : Svc) (url : String) : Svc × Except String Unit :=
  match lookup svc.configs url with
  | none => (svc, .error "KeyError")
  | some c =>
    let svc := { svc with configs := dinsert svc.configs url { c with isActive := false } }
    let svc := { svc with running := dinsert svc.running url false }
    let svc := { svc with caps := dinsert svc.caps url none }
    let svc := { svc with captureThreads := derase svc.captureThreads url }
    let svc := { svc with redis := derase svc.redis (redisKey url) }
    (svc, .ok ())

/-- Models `update_frame` (lines 234-242): encode the frame and `SET` it
under the stream's Redis key; a `None` frame is ignored. This method
exists on the service but is never invoked from `_capture_loop`. -/
def update_frame (svc : Svc) (url : String) (frame : Option (List Nat))
    (encode : List Nat → List Nat) : Svc :=
  match frame with
  | none => svc
  | some f => { svc with redis := dinsert svc.redis (redisKey url) (encode f) }

/-- Models `_save_video_clip_metadata` (lines 244-255). The two
`timezone.now()` readings inside the atomic block are identified with the
single instant `tDb`; `startT`/`endT` are the `time.time()` values passed
by the loop, so the stored record is
`start_time = tDb - (endT - startT)`, `end_time = tDb`. Raises `KeyError`
when the config dict has no entry for the url. -/
def save_video_clip_metadata (svc : Svc) (url hls : String)
    (startT endT tDb : ℚ) : Except String Clip :=
  match lookup svc.configs url with
  | none => .error "KeyError"
  | some _ =>
    let duration := endT - startT
    .ok { configRef := url, clipPath := hls,
          startTime := tDb - duration, endTime := tDb, duration := duration }

/-- Local state of one `_capture_loop` invocation (lines 122-125):
`reconnect_start_time`, `reconnect_attempts`, `last_frame_time`,
`video_clip_start_time`. -/
structure LoopState where
  reconnectStartTime : Option ℚ
  reconnectAttempts : Nat
  lastFrameTime : ℚ
  videoClipStartTime : ℚ
deriving DecidableEq

/-- Environment of one loop iteration: the outcome of `cap.read()` and the
values produced by each clock read (`time.time()` at lines 164, 183 and
188, `timezone.now()` inside `_save_video_clip_metadata`), plus whether
`_initialize_capture` would succeed if `_reconnect` runs this iteration. -/
structure CaptureEnv where
  ret : Bool
  tRead : ℚ
  tNoHandle : ℚ
  tCheck : ℚ
  tDb : ℚ
  initSuccess : Bool
deriving DecidableEq

/-- Outcome of one iteration of the `while` body: continue looping, leave
the loop through the `break` at line 191, or leave it through the
`except` clause at line 193 (an exception inside the body is caught,
logged and the loop exits). Each case carries the mutated service state,
the loop locals and the clip records committed during the iteration. -/
inductive StepOut where
  | next (svc : Svc) (st : LoopState) (clips : List Clip)
  | exitLoop (svc : Svc) (st : LoopState) (clips : List Clip)
  | crash (svc : Svc) (st : LoopState) (clips : List Clip)
deriving DecidableEq

/-- Service state carried by a step outcome. -/
def StepOut.svcOf : StepOut → Svc
  | .next svc _ _ => svc
  | .exitLoop svc _ _ => svc
  | .crash svc _ _ => svc

/-- Loop locals carried by a step outcome. -/
def StepOut.stOf : StepOut → LoopState
  | .next _ st _ => st
  | .exitLoop _ st _ => st
  | .crash _ st _ => st

/-- Clip records carried by a step outcome. -/
def StepOut.clipsOf : StepOut → List Clip
  | .next _ _ clips => clips
  | .exitLoop _ _ clips => clips
  | .crash _ _ clips => clips

/-- Models lines 187-191: when `reconnect_start_time` is set and either
the elapsed time exceeds `self.reconnect_timeout` or the attempt counter
exceeds `self.max_reconnect_attempts`, run `_set_inactive` and break. -/
def terminationCheck (url : String) (svc : Svc) (st : LoopState)
    (env : CaptureEnv) (clips : List Clip) : StepOut :=
  match st.reconnectStartTime with
  | none => .next svc st clips
  | some t0 =>
    if env.tCheck - t0 > reconnectTimeout ∨ maxReconnectAttempts < st.reconnectAttempts then
      match set_inactive svc url with
      | (svc', .ok _) => .exitLoop svc' st clips
      | (svc', .error _) => .crash svc' st clips
    else .next svc st clips

/-- Local-state update of lines 167-169 (successful read): refresh
`last_frame_time`, clear `reconnect_start_time`, zero
`reconnect_attempts`. -/
def successUpdate (st : LoopState) (t : ℚ) : LoopState :=
  { st with lastFrameTime := t, reconnectStartTime := none,
            reconnectAttempts := 0 }

/-- Local-state update shared by lines 177-179 and 182-184: record
`reconnect_start_time` and increment the attempt counter only when
`reconnect_start_time` is unset. -/
def stallUpdate (st : LoopState) (t : ℚ) : LoopState :=
  match st.reconnectStartTime with
  | none => { st with reconnectStartTime := some t,
                      reconnectAttempts := st.reconnectAttempts + 1 }
  | some _ => st

/-- Models lines 166-174 (successful read): apply `successUpdate` and
commit a clip record when the window is full (`current_time -
video_clip_start_time >= self.video_clip_duration`), re-opening the
window at `current_time`. -/
def successRead (url hls : String) (svc : Svc) (st : LoopState)
    (env : CaptureEnv) : StepOut :=
  if env.tRead - st.videoClipStartTime ≥ videoClipDuration then
    match save_video_clip_metadata svc url hls st.videoClipStartTime env.tRead env.tDb with
    | .error _ => .crash svc (successUpdate st env.tRead) []
    | .ok clip =>
        terminationCheck url svc
          { successUpdate st env.tRead with videoClipStartTime := env.tRead } env [clip]
  else terminationCheck url svc (successUpdate st env.tRead) env []

/-- Models lines 176-180 (read failed, handle present, liveness threshold
passed): `stallUpdate` at `current_time`, then `_reconnect`. -/
def stalledRead (url : String) (svc : Svc) (st : LoopState)
    (env : CaptureEnv) : StepOut :=
  terminationCheck url (reconnect svc url env.initSuccess)
    (stallUpdate st env.tRead) env []

/-- Models lines 181-185 (no usable handle): `stallUpdate` at a fresh
`time.time()`, then `_reconnect`. -/
def noHandle (url : String) (svc : Svc) (st : LoopState)
    (env : CaptureEnv) : StepOut :=
  terminationCheck url (reconnect svc url env.initSuccess)
    (stallUpdate st env.tNoHandle) env []

/-- The guard at line 162: `rtmp_url in self.caps and self.caps[rtmp_url]
is not None and self.caps[rtmp_url].isOpened()`. -/
def capPresent (svc : Svc) (url : String) : Bool :=
  match lookup svc.caps url with
  | some (some c) => c.isOpened
  | _ => false

/-- One full iteration of the `while` body of `_capture_loop`
(lines 161-191). -/
def captureStep (url hls : String) (svc : Svc) (st : LoopState)
    (env : CaptureEnv) : StepOut :=
  if capPresent svc url then
    if env.ret then successRead url hls svc st env
    else if env.tRead - st.lastFrameTime > 1 then stalledRead url svc st env
    else terminationCheck url svc st env []
  else noHandle url svc st env

/-- The `while self.running[rtmp_url]` loop (line 161), driven by a list
of per-iteration environments; accumulates committed clip records. A
missing running entry (`KeyError`, caught by the `except` clause) and a
false flag both end the loop. -/
def runCapture (url hls : String) :
    List CaptureEnv → Svc → LoopState → List Clip → Svc × LoopState × List Clip
  | [], svc, st, acc => (svc, st, acc)
  | env :: rest, svc, st, acc =>
    match lookup svc.running url with
    | some true =>
      match captureStep url hls svc st env with
      | .next svc' st' clips => runCapture url hls rest svc' st' (acc ++ clips)
      | .exitLoop svc' st' clips => (svc', st', acc ++ clips)
      | .crash svc' st' clips => (svc', st', acc ++ clips)
    | _ => (svc, st, acc)

/-- The loop from an arbitrary iteration onwards followed by the `finally`
block (lines 195-201), which terminates the ffmpeg subprocess. -/
def capture_from (url hls : String) (envs : List CaptureEnv) (svc : Svc)
    (st : LoopState) (acc : List Clip) : Svc × LoopState × List Clip :=
  let r := runCapture url hls envs svc st acc
  ({ r.1 with ffmpeg := dinsert r.1.ffmpeg url false }, r.2.1, r.2.2)

/-!  Interleaving model for concurrent `start_server` calls.

`start_server` runs on an API worker thread and is not protected by any
lock. Its only read of the shared running dict is the check at line 59;
the writes happen at lines 67-74, after the blocking database round-trip
of `get_or_create` (line 62), during which the GIL is released. A call is
therefore modelled as two atomic phases: the check, and the rest. -/

/-- Program counter of one in-flight `start_server` call. -/
inductive StartPC where
  | atCheck
  | atLaunch
  | finished (success : Bool)
deriving DecidableEq

/-- One atomic phase of a `start_server` call: the running-flag check
(line 59) or the launch block (lines 62-77). A finished call stays put. -/
def startMicro (url : String) (initSuccess : Bool) (svc : Svc) (pc : StartPC) :
    Svc × StartPC :=
  match pc with
  | .atCheck =>
      if (lookup svc.running url).getD false then (svc, .finished false)
      else (svc, .atLaunch)
  | .atLaunch => (startRest svc url initSuccess, .finished true)
  | .finished b => (svc, .finished b)

/-- Runs two concurrent `start_server url` calls under an explicit
schedule: `true` steps the first caller, `false` the second. -/
def runTwo (url : String) (i1 i2 : Bool) :
    List Bool → Svc → StartPC → StartPC → Svc × StartPC × StartPC
  | [], svc, p1, p2 => (svc, p1, p2)
  | true :: rest, svc, p1, p2 =>
      let s := startMicro url i1 svc p1
      runTwo url i1 i2 rest s.1 s.2 p2
  | false :: rest, svc, p1, p2 =>
      let s := startMicro url i2 svc p2
      runTwo url i1 i2 rest s.1 p1 s.2

/-!  Embedding of `objectDetect_service.py`. -/

/-- A decoded frame; `shape[:2]` of the numpy array gives
`(height, width)`, and `data` stands for the pixel payload. -/
structure Frame where
  width : Nat
  height : Nat
  data : List Nat
deriving DecidableEq

/-- A detection dict returned by `_detect_objects`:
`\x7b'x', 'y', 'width', 'height', 'entity_type'\x7d`. -/
structure DetObj where
  x : Nat
  y : Nat
  width : Nat
  height : Nat
  entityType : String
deriving DecidableEq

/-- A `KeyFrame` row created by `_process_frame`. -/
structure KeyFrame where
  frameTime : ℚ
  frameIndex : Nat
deriving DecidableEq

/-- The database tables touched by the detection worker: `KeyFrame`,
`DetectedObject` (a saved row referencing its key frame by index in the
`keyFrames` table), and `EntityType` (identified by `type_name`). -/
structure VisionDb where
  keyFrames : List KeyFrame
  detectedObjects : List (Nat × DetObj)
  entityTypes : List String
deriving DecidableEq

/-- Models `np.random.randint(low, high)`: raises `ValueError` when
`high ≤ low`, otherwise returns `low + r % (high - low)` for the oracle
draw `r`, which ranges over exactly the interval `[low, high)`. -/
def randint (low high r : Nat) : Except String Nat :=
  if high ≤ low then .error "ValueError"
  else .ok (low + r % (high - low))

/-- Models `_detect_objects` (objectDetect_service.py lines 140-150):
choose an entity type at random (`ValueError` on an empty entity-type
dict, as `np.random.choice` of an empty list raises), then draw
`x ∈ [0, width - 50)`, `y ∈ [0, height - 50)`,
`w ∈ [50, min 100 (width - x))`, `h ∈ [50, min 100 (height - y))`,
returning a single detection dict. -/
def detect_objects (entityKeys : List String) (eIdx : Nat) (frame : Frame)
    (r1 r2 r3 r4 : Nat) : Except String (List DetObj) :=
  match entityKeys with
  | [] => .error "ValueError"
  | k :: ks =>
    let entity := (k :: ks).getD (eIdx % (ks.length + 1)) k
    match randint 0 (frame.width - 50) r1 with
    | .error e => .error e
    | .ok x =>
      match randint 0 (frame.height - 50) r2 with
      | .error e => .error e
      | .ok y =>
        match randint 50 (min 100 (frame.width - x)) r3 with
        | .error e => .error e
        | .ok w =>
          match randint 50 (min 100 (frame.height - y)) r4 with
          | .error e => .error e
          | .ok h =>
            .ok [{ x := x, y := y, width := w, height := h, entityType := entity }]

/-- Models `_process_frame` (lines 109-138): create a `KeyFrame` row, run
`_detect_objects`, and for each detection `get_or_create` its entity
type. The `DetectedObject` instances are constructed into the local
`detected_object_instances` list but never saved, so the
`detectedObjects` table is left untouched. An exception from
`_detect_objects` propagates after the key frame was created. -/
def process_frame (entityKeys : List String) (db : VisionDb) (tNow : ℚ)
    (frame : Frame) (eIdx r1 r2 r3 r4 : Nat) :
    VisionDb × Except String (List DetObj) :=
  match detect_objects entityKeys eIdx frame r1 r2 r3 r4 with
  | .error e =>
      ({ db with keyFrames := db.keyFrames ++ [{ frameTime := tNow, frameIndex := 0 }] },
       .error e)
  | .ok dets =>
      (dets.foldl (fun d obj =>
          if obj.entityType ∈ d.entityTypes then d
          else { d with entityTypes := d.entityTypes ++ [obj.entityType] })
        { db with keyFrames := db.keyFrames ++ [{ frameTime := tNow, frameIndex := 0 }] },
       .ok dets)

/-- The slice of a `VideoCapConfig` row the detection loop reads:
`frame_interval`, the sampling sleep. -/
structure DetectCfg where
  frameInterval : ℚ
deriving DecidableEq

/-- Observable actions of one detection-loop iteration. -/
inductive DetectAction where
  | processed (f : Frame)
  | slept (interval : ℚ)
deriving DecidableEq

/-- One iteration of `_detect_loop` (lines 99-107): `GET` the stream's
frame key; when a non-empty value is present (`if frame_bytes:`), decode
it and run `_process_frame`; in every non-raising path finish by sleeping
for `self.configs[rtmp_url].frame_interval`. A missing config entry
raises `KeyError`; an exception skips the sleep and kills the loop. -/
def detect_iter (configs : List (String × DetectCfg))
    (store : List (String × List Nat)) (url : String)
    (entityKeys : List String) (db : VisionDb) (decode : List Nat → Frame)
    (tNow : ℚ) (eIdx r1 r2 r3 r4 : Nat) :
    VisionDb × Except String (List DetectAction) :=
  match lookup store (redisKey url) with
  | some bytes =>
    if bytes = [] then
      match lookup configs url with
      | none => (db, .error "KeyError")
      | some cfg => (db, .ok [.slept cfg.frameInterval])
    else
      let frame := decode bytes
      match process_frame entityKeys db tNow frame eIdx r1 r2 r3 r4 with
      | (db', .error e) => (db', .error e)
      | (db', .ok _) =>
        match lookup configs url with
        | none => (db', .error "KeyError")
        | some cfg => (db', .ok [.processed frame, .slept cfg.frameInterval])
  | none =>
    match lookup configs url with
    | none => (db, .error "KeyError")
    | some cfg => (db, .ok [.slept cfg.frameInterval])

/-!  Concrete fixtures used by the witness and counterexample theorems. -/

/-- An active configuration row for `"cam1"`. -/
def cfg1 : VideoCapConfig := { rtmpUrl := "cam1", isActive := true }

/-- A service with one running stream `"cam1"` holding an opened handle,
a spawned thread and subprocess, and a published frame in Redis. -/
def svcEx : Svc :=
  { configs := [("cam1", cfg1)],
    caps := [("cam1", some { isOpened := true })],
    running := [("cam1", true)],
    captureThreads := [("cam1", ())],
    redis := [(redisKey "cam1", [7, 7])],
    ffmpeg := [("cam1", true)] }

/-- Loop locals right after loop entry: no stall episode, clocks at 0. -/
def stFresh : LoopState :=
  { reconnectStartTime := none, reconnectAttempts := 0,
    lastFrameTime := 0, videoClipStartTime := 0 }

/-- Loop locals one iteration into a stall episode that began at time 2. -/
def stStalled : LoopState :=
  { reconnectStartTime := some 2, reconnectAttempts := 1,
    lastFrameTime := 1, videoClipStartTime := 0 }

/-- Loop locals with no stall episode but a stale `last_frame_time`. -/
def stQuiet : LoopState :=
  { reconnectStartTime := none, reconnectAttempts := 0,
    lastFrameTime := 1, videoClipStartTime := 0 }

/-- An iteration whose read succeeds at time 10. -/
def envSuccess : CaptureEnv :=
  { ret := true, tRead := 10, tNoHandle := 10, tCheck := 10, tDb := 10,
    initSuccess := true }

/-- An iteration whose read fails at time 10, with the reconnect window
already past the 5-second timeout for an episode begun at time 2. -/
def envTimeout : CaptureEnv :=
  { ret := false, tRead := 10, tNoHandle := 10, tCheck := 10, tDb := 10,
    initSuccess := false }

/-- An iteration whose read fails at time 3, inside the reconnect window
of an episode begun at time 2. -/
def envStall : CaptureEnv :=
  { ret := false, tRead := 3, tNoHandle := 3, tCheck := 3, tDb := 3,
    initSuccess := true }

/-- A successful read at time 30 with an ideal clock: the clip window that
opened at time 0 is exactly `video_clip_duration` old. -/
def envBoundary : CaptureEnv :=
  { ret := true, tRead := 30, tNoHandle := 30, tCheck := 30, tDb := 30,
    initSuccess := true }

/-- A successful read at time 61 with an ideal clock. -/
def envLater : CaptureEnv :=
  { ret := true, tRead := 61, tNoHandle := 61, tCheck := 61, tDb := 61,
    initSuccess := true }

/-- Spec relation between consecutive clip records: the first window's
end is the second window's start. -/
def clipAbut (x y : Clip) : Prop := x.endTime = y.startTime

/-- Spec predicate on a clip sequence: consecutive records abut
(contiguous, non-overlapping windows). -/
def clipsContiguous (l : List Clip) : Prop := List.Chain' clipAbut l

/-- An empty detection database. -/
def db0 : VisionDb := { keyFrames := [], detectedObjects := [], entityTypes := [] }

/-- A sampling configuration at 15 frames per second. -/
def cfgD : DetectCfg := { frameInterval := 1 / 15 }

/-!  Helper lemmas about the dictionary operations. -/

theorem lookup_dinsert_self {β : Type} (d : List (String × β)) (k : String) (v : β) :
    lookup (dinsert d k v) k = some v := by
  induction d with
  | nil => simp [dinsert, lookup]
  | cons p rest ih =>
    obtain ⟨k', v'⟩ := p
    by_cases h : k' = k
    · simp [dinsert, h, lookup]
    · simp [dinsert, h, lookup, ih]

theorem lookup_dinsert_other {β : Type} (d : List (String × β)) (k k' : String)
    (v : β) (h : k' ≠ k) : lookup (dinsert d k v) k' = lookup d k' := by
  have hne : ¬ k = k' := fun hh => h hh.symm
  induction d with
  | nil => simp [dinsert, lookup, hne]
  | cons p rest ih =>
    obtain ⟨ka, va⟩ := p
    by_cases hk : ka = k
    · subst hk
      simp [dinsert, lookup, hne]
    · simp only [dinsert, if_neg hk, lookup]
      by_cases hk' : ka = k'
      · simp [hk']
      · simp [hk', ih]

theorem lookup_derase_self {β : Type} (d : List (String × β)) (k : String) :
    lookup (derase d k) k = none := by
  induction d with
  | nil => simp [derase, lookup]
  | cons p rest ih =>
    obtain ⟨k', v'⟩ := p
    by_cases h : k' = k
    · simp [derase, h, ih]
    · simp [derase, h, lookup, ih]

/-!  Helper lemmas about the capture-loop step. -/

theorem terminationCheck_stOf (url : String) (svc : Svc) (st : LoopState)
    (env : CaptureEnv) (clips : List Clip) :
    (terminationCheck url svc st env clips).stOf = st := by
  unfold terminationCheck
  split
  · rfl
  · split
    · split <;> rfl
    · rfl

theorem terminationCheck_clipsOf (url : String) (svc : Svc) (st : LoopState)
    (env : CaptureEnv) (clips : List Clip) :
    (terminationCheck url svc st env clips).clipsOf = clips := by
  unfold terminationCheck
  split
  · rfl
  · split
    · split <;> rfl
    · rfl

theorem terminationCheck_none (url : String) (svc : Svc) (st : LoopState)
    (env : CaptureEnv) (clips : List Clip) (h : st.reconnectStartTime = none) :
    terminationCheck url svc st env clips = .next svc st clips := by
  unfold terminationCheck
  rw [h]

theorem set_inactive_eq (svc : Svc) (url : String) (c : VideoCapConfig)
    (hc : lookup svc.configs url = some c) :
    set_inactive svc url =
      ({ svc with
          configs := dinsert svc.configs url { c with isActive := false },
          running := dinsert svc.running url false,
          caps := dinsert svc.caps url none,
          captureThreads := derase svc.captureThreads url,
          redis := derase svc.redis (redisKey url) }, .ok ()) := by
  unfold set_inactive
  rw [hc]

/-- Computation of the `running` field through `startRest`. -/
theorem startRest_running (svc : Svc) (url : String) (i : Bool) :
    (startRest svc url i).running = dinsert svc.running url true := rfl

/-- C1, amended: in sequential execution at most one supervisor per
identifier exists: starting a stream whose running flag is not set
succeeds, and a second `start_server` for the same identifier then fails
with AlreadyRunning and leaves the state unchanged. (The registry does
not serialize concurrent calls; see `concurrent_start_both_succeed`.) -/
theorem start_sequential_exclusive (svc : Svc) (url : String) (i1 i2 : Bool)
    (h : (lookup svc.running url).getD false = false) :
    start_server svc url i1 = (startRest svc url i1, true, "Server started successfully")
    ∧ start_server (startRest svc url i1) url i2
        = (startRest svc url i1, false, "Server already running") := by
  constructor
  · simp [start_server, h]
  · have hr : lookup (startRest svc url i1).running url = some true := by
      rw [startRest_running]
      exact lookup_dinsert_self _ _ _
    simp [start_server, hr]

/-- Witness for `start_sequential_exclusive` at `svc0` and `"cam3"`. -/
theorem start_sequential_exclusive_witness :
    (lookup svc0.running "cam3").getD false = false
    ∧ (start_server svc0 "cam3" true
        = (startRest svc0 "cam3" true, true, "Server started successfully")
       ∧ start_server (startRest svc0 "cam3" true) "cam3" true
          = (startRest svc0 "cam3" true, false, "Server already running")) :=
  ⟨rfl, start_sequential_exclusive svc0 "cam3" true true rfl⟩

/-- C1, counterexample to the claim as stated: two concurrent
`start_server "cam3"` calls, interleaved so that both pass the
running-flag check (line 59) before either writes the flag (line 68),
both return success — the registry does not serialize per identifier. -/
theorem concurrent_start_both_succeed :
    (runTwo "cam3" true true [true, false, true, false] svc0 .atCheck .atCheck).2.1
      = StartPC.finished true
    ∧ (runTwo "cam3" true true [true, false, true, false] svc0 .atCheck .atCheck).2.2
      = StartPC.finished true := by
  constructor <;> rfl

/-- C7, amended: `stop_server` reports NotRunning with no side effects
whenever the running flag is unset (never started, self-terminated, or
already stopped); when the flag is set and the handle slot holds an
actual handle, it joins the thread, releases the handle, deactivates the
configuration, deletes the stream's Redis frame key, and a second call
then reports NotRunning with no further change. (When the handle slot
holds `None` the call instead raises; see `stop_none_handle_raises`.) -/
theorem stop_server_contract (svc : Svc) (url : String) (c : VideoCapConfig) (cap : Cap) :
    ((lookup svc.running url).getD false = false →
      stop_server svc url = (svc, .ok (false, "Server not running")))
    ∧ ((lookup svc.running url).getD false = true →
       lookup svc.caps url = some (some cap) →
       lookup svc.configs url = some c →
       ∃ svc',
         stop_server svc url = (svc', .ok (true, "Server stopped successfully"))
         ∧ check_server_status svc' url = false
         ∧ lookup svc'.caps url = none
         ∧ lookup svc'.configs url = some { c with isActive := false }
         ∧ lookup svc'.redis (redisKey url) = none
         ∧ lookup svc'.captureThreads url = none
         ∧ stop_server svc' url = (svc', .ok (false, "Server not running"))) := by
  constructor
  · intro h
    simp [stop_server, h]
  · intro h hcap hcfg
    refine ⟨{ svc with
        configs := dinsert svc.configs url { c with isActive := false },
        caps := derase svc.caps url,
        running := dinsert svc.running url false,
        captureThreads := derase svc.captureThreads url,
        redis := derase svc.redis (redisKey url) }, ?_, ?_, ?_, ?_, ?_, ?_, ?_⟩
    · simp [stop_server, h, hcap, stopFinish, hcfg]
    · simp [check_server_status, lookup_dinsert_self]
    · exact lookup_derase_self _ _
    · exact lookup_dinsert_self _ _ _
    · exact lookup_derase_self _ _
    · exact lookup_derase_self _ _
    · simp [stop_server, lookup_dinsert_self]

/-- Witness for `stop_server_contract`: part one applied at `"cam2"`, a
url never started in `svcEx` (running flag absent, stop is a no-op
reporting NotRunning), and part two applied at `"cam1"`, the running
stream of `svcEx` with an actual opened handle — all three of its
hypotheses hold there by computation and the full stop cleanup plus the
NotRunning second stop are obtained. -/
theorem stop_server_contract_witness :
    ((lookup svcEx.running "cam2").getD false = false
     ∧ stop_server svcEx "cam2" = (svcEx, .ok (false, "Server not running")))
    ∧ ((lookup svcEx.running "cam1").getD false = true
       ∧ lookup svcEx.caps "cam1" = some (some { isOpened := true })
       ∧ lookup svcEx.configs "cam1" = some cfg1
       ∧ (∃ svc',
           stop_server svcEx "cam1" = (svc', .ok (true, "Server stopped successfully"))
           ∧ check_server_status svc' "cam1" = false
           ∧ lookup svc'.caps "cam1" = none
           ∧ lookup svc'.configs "cam1" = some { cfg1 with isActive := false }
           ∧ lookup svc'.redis (redisKey "cam1") = none
           ∧ lookup svc'.captureThreads "cam1" = none
           ∧ stop_server svc' "cam1" = (svc', .ok (false, "Server not running")))) :=
  ⟨⟨rfl, (stop_server_contract svcEx "cam2" cfg1 { isOpened := true }).1 rfl⟩,
   rfl, rfl, rfl,
   (stop_server_contract svcEx "cam1" cfg1 { isOpened := true }).2 rfl rfl rfl⟩

/-- C7, counterexample to the claim as stated: start a stream whose
decode handle fails to open (`self.caps[url] = None`), then stop it.
Line 89 calls `.release()` on `None` and raises `AttributeError`; the
configuration is left active and the claimed cleanup does not happen. -/
theorem stop_none_handle_raises :
    (stop_server (start_server svc0 "cam2" false).1 "cam2").2
      = Except.error "AttributeError"
    ∧ lookup ((stop_server (start_server svc0 "cam2" false).1 "cam2").1).configs "cam2"
      = some { rtmpUrl := "cam2", isActive := true } := by
  constructor <;> rfl

theorem successRead_svcOf (url hls : String) (svc : Svc) (st : LoopState)
    (env : CaptureEnv) : (successRead url hls svc st env).svcOf = svc := by
  unfold successRead
  split
  · split
    · rfl
    · rw [terminationCheck_none _ _ _ _ _ rfl]
      rfl
  · rw [terminationCheck_none _ _ _ _ _ rfl]
    rfl

theorem successRead_attempts (url hls : String) (svc : Svc) (st : LoopState)
    (env : CaptureEnv) :
    (successRead url hls svc st env).stOf.reconnectAttempts = 0 := by
  unfold successRead
  split
  · split
    · rfl
    · rw [terminationCheck_stOf]
      rfl
  · rw [terminationCheck_stOf]
    rfl

theorem stallUpdate_attempts (st : LoopState) (t : ℚ) :
    (stallUpdate st t).reconnectAttempts = st.reconnectAttempts
    ∨ (stallUpdate st t).reconnectAttempts = st.reconnectAttempts + 1 := by
  unfold stallUpdate
  cases h : st.reconnectStartTime
  · right; rfl
  · left; rfl

theorem terminationCheck_next_svc (url : String) (svc : Svc) (st : LoopState)
    (env : CaptureEnv) (clips : List Clip) (svc' : Svc) (st' : LoopState)
    (cl : List Clip)
    (h : terminationCheck url svc st env clips = .next svc' st' cl) :
    svc' = svc := by
  unfold terminationCheck at h
  split at h
  · injection h with h1 h2 h3
    exact h1.symm
  · split at h
    · split at h <;> exact StepOut.noConfusion h
    · injection h with h1 h2 h3
      exact h1.symm

/-- C2, evidence: `_capture_loop` never publishes a frame. On a
successful read the iteration leaves the Redis keyspace untouched — the
loop never calls `update_frame`, so no `SET` of the stream's frame key
ever happens inside it. -/
theorem capture_success_no_store_write (url hls : String) (svc : Svc)
    (st : LoopState) (env : CaptureEnv)
    (hcap : capPresent svc url = true) (hret : env.ret = true) :
    (captureStep url hls svc st env).svcOf.redis = svc.redis := by
  simp [captureStep, hcap, hret, successRead_svcOf]

/-- Witness for `capture_success_no_store_write` at the running stream
`"cam1"` and a successful read. -/
theorem capture_success_no_store_write_witness :
    capPresent svcEx "cam1" = true ∧ envSuccess.ret = true
    ∧ (captureStep "cam1" "hls" svcEx stFresh envSuccess).svcOf.redis = svcEx.redis :=
  ⟨rfl, rfl, capture_success_no_store_write "cam1" "hls" svcEx stFresh envSuccess rfl rfl⟩

/-- C5: the reconnect attempt counter is zeroed exactly by a successful
frame read: any iteration whose read succeeds leaves the counter at 0,
and any other iteration (including every one that runs `_reconnect`,
however that reconnect fares) leaves the counter unchanged or increments
it — it is never reset by a reconnect alone. -/
theorem attempts_reset_iff_success (url hls : String) (svc : Svc)
    (st : LoopState) (env : CaptureEnv) :
    ((capPresent svc url = true ∧ env.ret = true) →
      (captureStep url hls svc st env).stOf.reconnectAttempts = 0)
    ∧ (¬(capPresent svc url = true ∧ env.ret = true) →
      (captureStep url hls svc st env).stOf.reconnectAttempts = st.reconnectAttempts
      ∨ (captureStep url hls svc st env).stOf.reconnectAttempts
          = st.reconnectAttempts + 1) := by
  constructor
  · rintro ⟨hcap, hret⟩
    simp [captureStep, hcap, hret, successRead_attempts]
  · intro hn
    by_cases hcap : capPresent svc url = true
    · have hret : env.ret = false := by
        cases hr : env.ret
        · rfl
        · exact absurd ⟨hcap, hr⟩ hn
      by_cases hs : env.tRead - st.lastFrameTime > 1
      · simp only [captureStep, hcap, if_true, hret, stalledRead,
          Bool.false_eq_true, if_false, hs, terminationCheck_stOf]
        exact stallUpdate_attempts st env.tRead
      · simp [captureStep, hcap, hret, hs, terminationCheck_stOf]
    · have hcap' : capPresent svc url = false := by
        cases hc : capPresent svc url
        · rfl
        · exact absurd hc hcap
      simp only [captureStep, hcap', Bool.false_eq_true, if_false, noHandle,
        terminationCheck_stOf]
      exact stallUpdate_attempts st env.tNoHandle

/-- Witness for `attempts_reset_iff_success`: a successful read after a
stall episode (counter at 1) resets the counter to 0. -/
theorem attempts_reset_iff_success_witness :
    (capPresent svcEx "cam1" = true ∧ envSuccess.ret = true)
    ∧ (captureStep "cam1" "hls" svcEx stStalled envSuccess).stOf.reconnectAttempts = 0 :=
  ⟨⟨rfl, rfl⟩,
   (attempts_reset_iff_success "cam1" "hls" svcEx stStalled envSuccess).1 ⟨rfl, rfl⟩⟩

/-- C6, amended: on a stalled iteration (handle present, read failed,
elapsed time since `last_frame_time` above the 1-second threshold) the
loop records `reconnect_started_at` and increments `reconnect_attempts`
only when `reconnect_started_at` was unset — the first stalled iteration
of an episode; later stalled iterations leave both untouched. Every such
iteration attempts a reconnect (release, pause, reinitialize), whose
outcome is visible in the handle slot when the loop continues. -/
theorem stall_increment_first_only (url hls : String) (svc : Svc)
    (st : LoopState) (env : CaptureEnv)
    (hcap : capPresent svc url = true) (hret : env.ret = false)
    (hth : env.tRead - st.lastFrameTime > 1) :
    (st.reconnectStartTime = none →
      (captureStep url hls svc st env).stOf.reconnectStartTime = some env.tRead
      ∧ (captureStep url hls svc st env).stOf.reconnectAttempts
          = st.reconnectAttempts + 1)
    ∧ (∀ t0 : ℚ, st.reconnectStartTime = some t0 →
      (captureStep url hls svc st env).stOf.reconnectStartTime = some t0
      ∧ (captureStep url hls svc st env).stOf.reconnectAttempts
          = st.reconnectAttempts)
    ∧ (∀ (svc' : Svc) (st' : LoopState) (cl : List Clip),
      captureStep url hls svc st env = .next svc' st' cl →
      lookup svc'.caps url
        = some (if env.initSuccess then some { isOpened := true } else none)) := by
  have hstep : captureStep url hls svc st env = stalledRead url svc st env := by
    simp [captureStep, hcap, hret, hth]
  refine ⟨?_, ?_, ?_⟩
  · intro h
    rw [hstep]
    unfold stalledRead
    rw [terminationCheck_stOf]
    unfold stallUpdate
    rw [h]
    exact ⟨rfl, rfl⟩
  · intro t0 h
    rw [hstep]
    unfold stalledRead
    rw [terminationCheck_stOf]
    simp [stallUpdate, h]
  · intro svc' st' cl h
    rw [hstep] at h
    unfold stalledRead at h
    have hsvc := terminationCheck_next_svc _ _ _ _ _ _ _ _ h
    rw [hsvc]
    unfold reconnect init_capture
    exact lookup_dinsert_self _ _ _

/-- Witness for `stall_increment_first_only`: the first stalled iteration
of an episode records the episode start and bumps the counter to 1. -/
theorem stall_increment_first_only_witness :
    capPresent svcEx "cam1" = true ∧ envStall.ret = false
    ∧ envStall.tRead - stQuiet.lastFrameTime > 1
    ∧ ((captureStep "cam1" "hls" svcEx stQuiet envStall).stOf.reconnectStartTime
        = some envStall.tRead
       ∧ (captureStep "cam1" "hls" svcEx stQuiet envStall).stOf.reconnectAttempts
        = stQuiet.reconnectAttempts + 1) :=
  ⟨rfl, rfl, by norm_num [envStall, stQuiet],
   (stall_increment_first_only "cam1" "hls" svcEx stQuiet envStall rfl rfl
     (by norm_num [envStall, stQuiet])).1 rfl⟩

/-- C6, counterexample to the claim as stated: on a second consecutive
stalled iteration (`reconnect_start_time` already set) the attempt
counter is not incremented — the increment at line 179 sits inside the
`if reconnect_start_time is None` guard. -/
theorem stall_second_iteration_no_increment :
    capPresent svcEx "cam1" = true ∧ envStall.ret = false
    ∧ envStall.tRead - stStalled.lastFrameTime > 1
    ∧ stStalled.reconnectStartTime = some 2
    ∧ (captureStep "cam1" "hls" svcEx stStalled envStall).stOf.reconnectAttempts
        = stStalled.reconnectAttempts
    ∧ ¬ ((captureStep "cam1" "hls" svcEx stStalled envStall).stOf.reconnectAttempts
        = stStalled.reconnectAttempts + 1) := by
  have h3 : envStall.tRead - stStalled.lastFrameTime > 1 := by
    norm_num [envStall, stStalled]
  have hc : capPresent svcEx "cam1" = true := rfl
  have hr : envStall.ret = false := rfl
  have hstep : captureStep "cam1" "hls" svcEx stStalled envStall
      = stalledRead "cam1" svcEx stStalled envStall := by
    simp [captureStep, h3, hc, hr]
  have hatt : (captureStep "cam1" "hls" svcEx stStalled envStall).stOf.reconnectAttempts
      = stStalled.reconnectAttempts := by
    rw [hstep]
    unfold stalledRead
    rw [terminationCheck_stOf]
    rfl
  refine ⟨rfl, rfl, h3, rfl, hatt, ?_⟩
  rw [hatt]
  simp [stStalled]

theorem stallUpdate_some (st : LoopState) (t t0 : ℚ)
    (h : st.reconnectStartTime = some t0) : stallUpdate st t = st := by
  unfold stallUpdate
  rw [h]

theorem terminationCheck_fires (url : String) (svc : Svc) (st : LoopState)
    (env : CaptureEnv) (clips : List Clip) (t0 : ℚ) (c : VideoCapConfig)
    (hstall : st.reconnectStartTime = some t0)
    (hcond : env.tCheck - t0 > reconnectTimeout
      ∨ maxReconnectAttempts < st.reconnectAttempts)
    (hcfg : lookup svc.configs url = some c) :
    terminationCheck url svc st env clips =
      .exitLoop { svc with
          configs := dinsert svc.configs url { c with isActive := false },
          running := dinsert svc.running url false,
          caps := dinsert svc.caps url none,
          captureThreads := derase svc.captureThreads url,
          redis := derase svc.redis (redisKey url) } st clips := by
  unfold terminationCheck
  simp only [hstall]
  rw [if_pos hcond, set_inactive_eq svc url c hcfg]

/-- C4: once a stall episode is underway (`reconnect_start_time` set) and
an iteration again fails to read while the elapsed time exceeds the
reconnect timeout or the attempt counter exceeds its bound, the loop
terminates: it ignores every remaining iteration, the configuration's
active flag becomes false, the handle slot is nulled, the stream's Redis
frame key is gone, `check_server_status` reports not running, and the
`finally` block marks the ffmpeg subprocess terminated. -/
theorem reconnect_exhausted_terminates (url hls : String) (svc : Svc)
    (st : LoopState) (env : CaptureEnv) (rest : List CaptureEnv)
    (acc : List Clip) (t0 : ℚ) (c : VideoCapConfig)
    (hrun : lookup svc.running url = some true)
    (hcfg : lookup svc.configs url = some c)
    (hstall : st.reconnectStartTime = some t0)
    (hnoread : capPresent svc url = true → env.ret = false)
    (hcond : env.tCheck - t0 > reconnectTimeout
      ∨ maxReconnectAttempts < st.reconnectAttempts) :
    ∃ svc',
      runCapture url hls (env :: rest) svc st acc = (svc', st, acc)
      ∧ (∃ c', lookup svc'.configs url = some c' ∧ c'.isActive = false)
      ∧ lookup svc'.caps url = some none
      ∧ lookup svc'.redis (redisKey url) = none
      ∧ check_server_status svc' url = false
      ∧ lookup ((capture_from url hls (env :: rest) svc st acc).1).ffmpeg url
          = some false := by
  have hmain : ∃ svc₂ : Svc, captureStep url hls svc st env
      = .exitLoop { svc₂ with
          configs := dinsert svc₂.configs url { c with isActive := false },
          running := dinsert svc₂.running url false,
          caps := dinsert svc₂.caps url none,
          captureThreads := derase svc₂.captureThreads url,
          redis := derase svc₂.redis (redisKey url) } st [] := by
    by_cases hcap : capPresent svc url = true
    · have hret := hnoread hcap
      by_cases hs : env.tRead - st.lastFrameTime > 1
      · refine ⟨reconnect svc url env.initSuccess, ?_⟩
        have hb : captureStep url hls svc st env = stalledRead url svc st env := by
          simp [captureStep, hcap, hret, hs]
        rw [hb]
        unfold stalledRead
        rw [stallUpdate_some st env.tRead t0 hstall]
        exact terminationCheck_fires url _ st env [] t0 c hstall hcond hcfg
      · refine ⟨svc, ?_⟩
        have hb : captureStep url hls svc st env = terminationCheck url svc st env [] := by
          simp [captureStep, hcap, hret, hs]
        rw [hb]
        exact terminationCheck_fires url svc st env [] t0 c hstall hcond hcfg
    · have hcap' : capPresent svc url = false := by
        cases hc2 : capPresent svc url
        · rfl
        · exact absurd hc2 hcap
      refine ⟨reconnect svc url env.initSuccess, ?_⟩
      have hb : captureStep url hls svc st env = noHandle url svc st env := by
        simp [captureStep, hcap']
      rw [hb]
      unfold noHandle
      rw [stallUpdate_some st env.tNoHandle t0 hstall]
      exact terminationCheck_fires url _ st env [] t0 c hstall hcond hcfg
  obtain ⟨svc₂, hstep⟩ := hmain
  have hrc : runCapture url hls (env :: rest) svc st acc
      = ({ svc₂ with
          configs := dinsert svc₂.configs url { c with isActive := false },
          running := dinsert svc₂.running url false,
          caps := dinsert svc₂.caps url none,
          captureThreads := derase svc₂.captureThreads url,
          redis := derase svc₂.redis (redisKey url) }, st, acc) := by
    simp only [runCapture, hrun, hstep, List.append_nil]
  refine ⟨_, hrc, ⟨{ c with isActive := false }, lookup_dinsert_self _ _ _, rfl⟩,
    lookup_dinsert_self _ _ _, lookup_derase_self _ _, ?_, ?_⟩
  · simp [check_server_status, lookup_dinsert_self]
  · unfold capture_from
    rw [hrc]
    exact lookup_dinsert_self _ _ _

/-- Witness for `reconnect_exhausted_terminates`: stream `"cam1"`, stall
episode begun at time 2, next failing iteration checks the clock at time
10, past the 5-second reconnect timeout. -/
theorem reconnect_exhausted_terminates_witness :
    lookup svcEx.running "cam1" = some true
    ∧ lookup svcEx.configs "cam1" = some cfg1
    ∧ stStalled.reconnectStartTime = some 2
    ∧ envTimeout.tCheck - 2 > reconnectTimeout
    ∧ (∃ svc',
        runCapture "cam1" "hls" [envTimeout] svcEx stStalled [] = (svc', stStalled, [])
        ∧ (∃ c', lookup svc'.configs "cam1" = some c' ∧ c'.isActive = false)
        ∧ lookup svc'.caps "cam1" = some none
        ∧ lookup svc'.redis (redisKey "cam1") = none
        ∧ check_server_status svc' "cam1" = false
        ∧ lookup ((capture_from "cam1" "hls" [envTimeout] svcEx stStalled []).1).ffmpeg "cam1"
            = some false) :=
  ⟨rfl, rfl, rfl, by norm_num [envTimeout, reconnectTimeout],
   reconnect_exhausted_terminates "cam1" "hls" svcEx stStalled envTimeout [] [] 2 cfg1
     rfl rfl rfl (fun _ => rfl)
     (Or.inl (by norm_num [envTimeout, reconnectTimeout]))⟩

/-- C8: when the shared frame store has no entry for the stream's key, a
detection-loop iteration raises nothing and does no detection work: the
database is untouched and the only action is the sleep for the stream's
configured sampling interval. -/
theorem detect_iter_absent_blob (configs : List (String × DetectCfg))
    (store : List (String × List Nat)) (url : String)
    (entityKeys : List String) (db : VisionDb) (decode : List Nat → Frame)
    (tNow : ℚ) (eIdx r1 r2 r3 r4 : Nat) (cfg : DetectCfg)
    (hstore : lookup store (redisKey url) = none)
    (hcfg : lookup configs url = some cfg) :
    detect_iter configs store url entityKeys db decode tNow eIdx r1 r2 r3 r4
      = (db, .ok [.slept cfg.frameInterval]) := by
  unfold detect_iter
  simp only [hstore, hcfg]

/-- Witness for `detect_iter_absent_blob`: empty store, stream `"cam1"`
configured at 15 fps. -/
theorem detect_iter_absent_blob_witness :
    lookup ([] : List (String × List Nat)) (redisKey "cam1") = none
    ∧ lookup [("cam1", cfgD)] "cam1" = some cfgD
    ∧ detect_iter [("cam1", cfgD)] [] "cam1" ["person"] db0
        (fun _ => { width := 0, height := 0, data := [] }) 0 0 0 0 0 0
      = (db0, .ok [.slept cfgD.frameInterval]) :=
  ⟨rfl, rfl,
   detect_iter_absent_blob [("cam1", cfgD)] [] "cam1" ["person"] db0
     (fun _ => { width := 0, height := 0, data := [] }) 0 0 0 0 0 0 cfgD rfl rfl⟩

theorem entity_fold_detectedObjects (dets : List DetObj) (d : VisionDb) :
    (dets.foldl (fun d obj =>
        if obj.entityType ∈ d.entityTypes then d
        else { d with entityTypes := d.entityTypes ++ [obj.entityType] }) d).detectedObjects
      = d.detectedObjects := by
  induction dets generalizing d with
  | nil => rfl
  | cons o rest ih =>
    simp only [List.foldl_cons]
    rw [ih]
    split <;> rfl

theorem entity_fold_keyFrames (dets : List DetObj) (d : VisionDb) :
    (dets.foldl (fun d obj =>
        if obj.entityType ∈ d.entityTypes then d
        else { d with entityTypes := d.entityTypes ++ [obj.entityType] }) d).keyFrames
      = d.keyFrames := by
  induction dets generalizing d with
  | nil => rfl
  | cons o rest ih =>
    simp only [List.foldl_cons]
    rw [ih]
    split <;> rfl

/-- C3, evidence: `_process_frame` creates the keyed frame record and
runs detection, but the `DetectedObject` instances built from the
detections are never saved — on every path (any detection outcome, any
number of detections) the `detectedObjects` table is exactly what it was
before, while the key-frame row was appended. -/
theorem process_frame_detections_unsaved (entityKeys : List String)
    (db : VisionDb) (tNow : ℚ) (frame : Frame) (eIdx r1 r2 r3 r4 : Nat) :
    ((process_frame entityKeys db tNow frame eIdx r1 r2 r3 r4).1).detectedObjects
      = db.detectedObjects
    ∧ ((process_frame entityKeys db tNow frame eIdx r1 r2 r3 r4).1).keyFrames
      = db.keyFrames ++ [{ frameTime := tNow, frameIndex := 0 }] := by
  unfold process_frame
  split
  · exact ⟨rfl, rfl⟩
  · constructor
    · rw [entity_fold_detectedObjects]
    · rw [entity_fold_keyFrames]

theorem randint_ok (low high r : Nat) (h : low < high) :
    randint low high r = .ok (low + r % (high - low)) := by
  unfold randint
  rw [if_neg (by omega)]

/-- C10: for a frame whose width and height both exceed 50, the
placeholder detector returns exactly one detection for every possible
random draw, and its bounding box lies inside the frame with
`50 ≤ width < 100` and `50 ≤ height < 100` (the x and y coordinates are
naturals, hence nonnegative). The entity-type dict must be non-empty for
any draw to exist (`np.random.choice` raises on an empty list). -/
theorem detect_objects_bbox_in_frame (entityKeys : List String) (eIdx : Nat)
    (frame : Frame) (r1 r2 r3 r4 : Nat)
    (hk : entityKeys ≠ []) (hw : 50 < frame.width) (hh : 50 < frame.height) :
    ∃ o : DetObj,
      detect_objects entityKeys eIdx frame r1 r2 r3 r4 = .ok [o]
      ∧ o.x + o.width ≤ frame.width ∧ o.y + o.height ≤ frame.height
      ∧ 50 ≤ o.width ∧ o.width < 100 ∧ 50 ≤ o.height ∧ o.height < 100 := by
  obtain ⟨k, ks, rfl⟩ := List.exists_cons_of_ne_nil hk
  have h1 : (0 : Nat) < frame.width - 50 - 0 := by omega
  have h2 : (0 : Nat) < frame.height - 50 - 0 := by omega
  unfold detect_objects
  rw [randint_ok 0 (frame.width - 50) r1 (by omega),
    randint_ok 0 (frame.height - 50) r2 (by omega)]
  dsimp only
  have haa := Nat.mod_lt r1 h1
  have hcc := Nat.mod_lt r2 h2
  set a := r1 % (frame.width - 50 - 0) with ha
  set c := r2 % (frame.height - 50 - 0) with hc
  have h3 : (50 : Nat) < min 100 (frame.width - (0 + a)) := by omega
  have h4 : (50 : Nat) < min 100 (frame.height - (0 + c)) := by omega
  rw [randint_ok 50 (min 100 (frame.width - (0 + a))) r3 h3,
    randint_ok 50 (min 100 (frame.height - (0 + c))) r4 h4]
  dsimp only
  have hbb := Nat.mod_lt r3 (show 0 < min 100 (frame.width - (0 + a)) - 50 by omega)
  have hdd := Nat.mod_lt r4 (show 0 < min 100 (frame.height - (0 + c)) - 50 by omega)
  set b := r3 % (min 100 (frame.width - (0 + a)) - 50) with hb
  set d := r4 % (min 100 (frame.height - (0 + c)) - 50) with hd
  refine ⟨_, rfl, ?_, ?_, ?_, ?_, ?_, ?_⟩ <;> (dsimp only; omega)

/-- Witness for `detect_objects_bbox_in_frame`: a 100 by 60 frame, one
entity type, arbitrary draws. -/
theorem detect_objects_bbox_in_frame_witness :
    (["person"] : List String) ≠ []
    ∧ 50 < (100 : Nat) ∧ 50 < (60 : Nat)
    ∧ (∃ o : DetObj,
        detect_objects ["person"] 0 { width := 100, height := 60, data := [] } 7 13 21 34
          = .ok [o]
        ∧ o.x + o.width ≤ 100 ∧ o.y + o.height ≤ 60
        ∧ 50 ≤ o.width ∧ o.width < 100 ∧ 50 ≤ o.height ∧ o.height < 100) :=
  ⟨by simp, by omega, by omega,
   detect_objects_bbox_in_frame ["person"] 0 { width := 100, height := 60, data := [] }
     7 13 21 34 (by simp) (by decide) (by decide)⟩

theorem stallUpdate_vcst (st : LoopState) (t : ℚ) :
    (stallUpdate st t).videoClipStartTime = st.videoClipStartTime := by
  unfold stallUpdate
  split <;> rfl

theorem save_ok (svc : Svc) (url hls : String) (startT endT tDb : ℚ)
    (c : VideoCapConfig) (hcfg : lookup svc.configs url = some c) :
    save_video_clip_metadata svc url hls startT endT tDb
      = .ok { configRef := url, clipPath := hls,
              startTime := tDb - (endT - startT), endTime := tDb,
              duration := endT - startT } := by
  unfold save_video_clip_metadata
  rw [hcfg]

theorem captureStep_anchor (url hls : String) (svc : Svc) (st : LoopState)
    (env : CaptureEnv) (hclock : env.tDb = env.tRead) :
    ((captureStep url hls svc st env).clipsOf = []
      ∧ (captureStep url hls svc st env).stOf.videoClipStartTime
          = st.videoClipStartTime)
    ∨ (∃ cl, (captureStep url hls svc st env).clipsOf = [cl]
      ∧ cl.startTime = st.videoClipStartTime
      ∧ cl.endTime = (captureStep url hls svc st env).stOf.videoClipStartTime) := by
  unfold captureStep
  split
  · split
    · unfold successRead
      split
      · cases hsave : save_video_clip_metadata svc url hls st.videoClipStartTime
            env.tRead env.tDb with
        | error e =>
          simp only [hsave]
          left
          exact ⟨rfl, rfl⟩
        | ok clip =>
          have hfields : clip.startTime = env.tDb - (env.tRead - st.videoClipStartTime)
              ∧ clip.endTime = env.tDb := by
            unfold save_video_clip_metadata at hsave
            rcases hcl : lookup svc.configs url with _ | c
            · rw [hcl] at hsave
              exact absurd hsave (by simp)
            · rw [hcl] at hsave
              injection hsave with h
              rw [← h]
              exact ⟨rfl, rfl⟩
          simp only [hsave]
          rw [terminationCheck_clipsOf, terminationCheck_stOf]
          right
          refine ⟨clip, rfl, ?_, ?_⟩
          · rw [hfields.1, hclock]
            ring
          · rw [hfields.2, hclock]
      · rw [terminationCheck_clipsOf, terminationCheck_stOf]
        left
        exact ⟨rfl, rfl⟩
    · split
      · unfold stalledRead
        rw [terminationCheck_clipsOf, terminationCheck_stOf]
        left
        exact ⟨rfl, stallUpdate_vcst st env.tRead⟩
      · rw [terminationCheck_clipsOf, terminationCheck_stOf]
        left
        exact ⟨rfl, rfl⟩
  · unfold noHandle
    rw [terminationCheck_clipsOf, terminationCheck_stOf]
    left
    exact ⟨rfl, stallUpdate_vcst st env.tNoHandle⟩

theorem clipsContiguous_concat (acc : List Clip) (cl : Clip) (t : ℚ)
    (hacc : clipsContiguous acc)
    (hanchor : ∀ z ∈ acc.getLast?, z.endTime = t)
    (hs : cl.startTime = t) :
    clipsContiguous (acc ++ [cl]) := by
  unfold clipsContiguous at hacc ⊢
  refine List.Chain'.append hacc (List.chain'_singleton cl) ?_
  intro x hx y hy
  simp only [List.head?_cons, Option.mem_def, Option.some.injEq] at hy
  subst hy
  unfold clipAbut
  rw [hanchor x hx, hs]

theorem runCapture_contiguous (url hls : String) (envs : List CaptureEnv) :
    ∀ (svc : Svc) (st : LoopState) (acc : List Clip),
      (∀ e ∈ envs, e.tDb = e.tRead) →
      clipsContiguous acc →
      (∀ cl ∈ acc.getLast?, cl.endTime = st.videoClipStartTime) →
      clipsContiguous (runCapture url hls envs svc st acc).2.2 := by
  induction envs with
  | nil =>
    intro svc st acc _ hacc _
    simpa [runCapture] using hacc
  | cons env rest ih =>
    intro svc st acc hclock hacc hanchor
    have hanch := captureStep_anchor url hls svc st env
      (hclock env (List.mem_cons_self env rest))
    have hclock' : ∀ e ∈ rest, e.tDb = e.tRead :=
      fun e he => hclock e (List.mem_cons_of_mem env he)
    rcases hrun : lookup svc.running url with _ | b
    · simp only [runCapture, hrun]
      exact hacc
    · cases b
      · simp only [runCapture, hrun]
        exact hacc
      · cases hstep : captureStep url hls svc st env with
        | next svc' st' clips =>
          rw [hstep] at hanch
          simp only [StepOut.clipsOf, StepOut.stOf] at hanch
          simp only [runCapture, hrun, hstep]
          rcases hanch with ⟨h0, hv⟩ | ⟨cl, hcl, hs, he⟩
          · subst h0
            refine ih svc' st' (acc ++ []) hclock' ?_ ?_
            · simpa using hacc
            · simp only [List.append_nil]
              intro z hz
              rw [hanchor z hz, ← hv]
          · subst hcl
            refine ih svc' st' (acc ++ [cl]) hclock' ?_ ?_
            · exact clipsContiguous_concat acc cl st.videoClipStartTime hacc hanchor hs
            · intro z hz
              rw [List.getLast?_concat] at hz
              simp only [Option.mem_def, Option.some.injEq] at hz
              subst hz
              exact he
        | exitLoop svc' st' clips =>
          rw [hstep] at hanch
          simp only [StepOut.clipsOf, StepOut.stOf] at hanch
          simp only [runCapture, hrun, hstep]
          rcases hanch with ⟨h0, hv⟩ | ⟨cl, hcl, hs, he⟩
          · subst h0
            simpa using hacc
          · subst hcl
            exact clipsContiguous_concat acc cl st.videoClipStartTime hacc hanchor hs
        | crash svc' st' clips =>
          rw [hstep] at hanch
          simp only [StepOut.clipsOf, StepOut.stOf] at hanch
          simp only [runCapture, hrun, hstep]
          rcases hanch with ⟨h0, hv⟩ | ⟨cl, hcl, hs, he⟩
          · subst h0
            simpa using hacc
          · subst hcl
            exact clipsContiguous_concat acc cl st.videoClipStartTime hacc hanchor hs

/-- C9, amended: a clip record is committed exactly when the wall-clock
time since the current window's start reaches or exceeds (`>=`, not
strictly exceeds) the nominal clip duration; the new window then opens at
the commit read's timestamp; and — identifying the database clock read at
commit time with the loop's read timestamp — the records a run commits
are contiguous and non-overlapping: each record's end equals the next
record's start. -/
theorem clip_windows_contiguous :
    (∀ (url hls : String) (svc : Svc) (st : LoopState) (env : CaptureEnv)
        (c : VideoCapConfig),
      lookup svc.configs url = some c →
      capPresent svc url = true → env.ret = true →
      (((captureStep url hls svc st env).clipsOf ≠ []) ↔
        videoClipDuration ≤ env.tRead - st.videoClipStartTime)
      ∧ ((captureStep url hls svc st env).clipsOf ≠ [] →
        (captureStep url hls svc st env).stOf.videoClipStartTime = env.tRead))
    ∧ (∀ (url hls : String) (envs : List CaptureEnv) (svc : Svc) (st : LoopState),
      (∀ e ∈ envs, e.tDb = e.tRead) →
      clipsContiguous (runCapture url hls envs svc st []).2.2) := by
  constructor
  · intro url hls svc st env c hcfg hcap hret
    have hstep : captureStep url hls svc st env = successRead url hls svc st env := by
      simp [captureStep, hcap, hret]
    rw [hstep]
    unfold successRead
    by_cases hge : env.tRead - st.videoClipStartTime ≥ videoClipDuration
    · rw [if_pos hge, save_ok svc url hls _ _ _ c hcfg]
      dsimp only
      rw [terminationCheck_clipsOf, terminationCheck_stOf]
      exact ⟨⟨fun _ => hge, fun _ => by simp⟩, fun _ => rfl⟩
    · rw [if_neg hge]
      rw [terminationCheck_clipsOf, terminationCheck_stOf]
      refine ⟨⟨fun hne => absurd rfl hne, fun hle => absurd hle hge⟩,
        fun hne => absurd rfl hne⟩
  · intro url hls envs svc st hclock
    refine runCapture_contiguous url hls envs svc st [] hclock ?_ ?_
    · simp [clipsContiguous]
    · intro cl hcl
      simp at hcl

/-- Witness for `clip_windows_contiguous`: stream `"cam1"`, two
successful reads at times 30 and 61 under an ideal clock — the commit
criterion holds at the boundary read and the two committed records abut. -/
theorem clip_windows_contiguous_witness :
    lookup svcEx.configs "cam1" = some cfg1
    ∧ capPresent svcEx "cam1" = true ∧ envBoundary.ret = true
    ∧ (((captureStep "cam1" "hls" svcEx stFresh envBoundary).clipsOf ≠ []) ↔
        videoClipDuration ≤ envBoundary.tRead - stFresh.videoClipStartTime)
    ∧ (∀ e ∈ [envBoundary, envLater], e.tDb = e.tRead)
    ∧ clipsContiguous
        (runCapture "cam1" "hls" [envBoundary, envLater] svcEx stFresh []).2.2 :=
  ⟨rfl, rfl, rfl,
   (clip_windows_contiguous.1 "cam1" "hls" svcEx stFresh envBoundary cfg1 rfl rfl rfl).1,
   by intro e he; fin_cases he <;> rfl,
   clip_windows_contiguous.2 "cam1" "hls" [envBoundary, envLater] svcEx stFresh
     (by intro e he; fin_cases he <;> rfl)⟩

/-- C9, counterexample to the claim as stated: at a successful read whose
elapsed window time equals the nominal duration exactly (30 seconds,
not strictly more), the code commits a clip record — the commit condition
at line 172 is `>=`, while the claim says it fires only when the elapsed
time strictly exceeds the duration. -/
theorem clip_commit_at_exact_duration :
    ¬ (envBoundary.tRead - stFresh.videoClipStartTime > videoClipDuration)
    ∧ (captureStep "cam1" "hls" svcEx stFresh envBoundary).clipsOf ≠ [] := by
  constructor
  · norm_num [envBoundary, stFresh, videoClipDuration]
  · have hc : capPresent svcEx "cam1" = true := rfl
    have hr : envBoundary.ret = true := rfl
    have hge : envBoundary.tRead - stFresh.videoClipStartTime ≥ videoClipDuration := by
      norm_num [envBoundary, stFresh, videoClipDuration]
    have hstep : captureStep "cam1" "hls" svcEx stFresh envBoundary
        = successRead "cam1" "hls" svcEx stFresh envBoundary := by
      simp [captureStep, hc, hr]
    rw [hstep]
    unfold successRead
    rw [if_pos hge, save_ok svcEx "cam1" "hls" _ _ _ cfg1 rfl]
    dsimp only
    rw [terminationCheck_clipsOf]
    simp

end DjangoFlex
